import Mathlib

/-!
Verification of the polyfuse reply encoder (`src/fs.rs`) and the
heartbeat example filesystem (`examples/heartbeat_entry.rs`).

Bytes are modelled as natural numbers below 256; byte strings as
`List Nat`.  Machine integers are `Nat` (resp. `Int` for the signed
`error` field) with explicit `% 2^w` where overflow matters.
-/

/-- `u32::MAX` in Rust. -/
def U32_MAX : Nat := 2 ^ 32 - 1

/-- Modulus of 64-bit unsigned arithmetic. -/
def U64_MOD : Nat := 2 ^ 64

/-- Wrapping 64-bit addition (`u64` `+=` in release mode). -/
def wadd64 (a b : Nat) : Nat := (a + b) % U64_MOD

/-- Wrapping 64-bit subtraction (`u64` `-=` in release mode). -/
def wsub64 (a b : Nat) : Nat := (a % U64_MOD + (U64_MOD - b % U64_MOD)) % U64_MOD

/-- Little-endian encoding of `v` into `k` bytes (native-endian FUSE wire
format on a little-endian host). -/
def toLEBytes : Nat → Nat → List Nat
  | 0, _ => []
  | k + 1, v => v % 256 :: toLEBytes k (v / 256)

/-- Little-endian decoding of a byte string. -/
def fromLEBytes : List Nat → Nat
  | [] => 0
  | b :: bs => b % 256 + 256 * fromLEBytes bs

/-- Two's-complement bit pattern of a 32-bit signed integer. -/
def i32ToBits (e : Int) : Nat := (e % (2 ^ 32 : Int)).toNat

/-- Signed interpretation of a 32-bit pattern. -/
def i32OfBits (n : Nat) : Int :=
  if n < 2 ^ 31 then (n : Int) else (n : Int) - 2 ^ 32

/-- `fuse_in_header`: the fixed 40-byte prefix of every kernel request
(from `polyfuse_sys::abi`; only the fields `fs.rs` reads are modelled). -/
structure fuse_in_header where
  len : Nat
  opcode : Nat
  unique : Nat
  nodeid : Nat
  uid : Nat
  gid : Nat
  pid : Nat
  deriving Repr, DecidableEq

/-- `fuse_out_header`: the fixed 16-byte reply prefix `{len, error, unique}`. -/
structure fuse_out_header where
  len : Nat
  error : Int
  unique : Nat
  deriving Repr, DecidableEq

/-- Byte layout of `fuse_out_header` (`len: u32`, `error: i32`,
`unique: u64`, little-endian as on the wire). -/
def fuse_out_header.as_bytes (h : fuse_out_header) : List Nat :=
  toLEBytes 4 h.len ++ toLEBytes 4 (i32ToBits h.error) ++ toLEBytes 8 h.unique

/-- Parse the 16-byte out-header from the front of a byte string. -/
def decodeOutHeader (bs : List Nat) : Option fuse_out_header :=
  if bs.length < 16 then none
  else some
    { len := fromLEBytes (bs.take 4)
      error := i32OfBits (fromLEBytes ((bs.drop 4).take 4))
      unique := fromLEBytes ((bs.drop 8).take 8) }

/-- Error kinds surfaced by the reply path (`std::io::ErrorKind`). -/
inductive SendError where
  /-- `io::ErrorKind::InvalidData`: the total reply length overflows `u32`. -/
  | invalidData
  /-- Any error produced by the device writer itself. -/
  | deviceError
  deriving Repr, DecidableEq

/-- `Context`: contextual information about an incoming request
(`fs.rs`), together with the device writer it borrows.  The writer is
modelled by the byte stream written so far plus a flag saying whether
writes to it succeed. -/
structure Context where
  header : fuse_in_header
  writerOk : Bool
  written : List Nat
  deriving Repr, DecidableEq

/-- `Context::new`. -/
def Context.new (header : fuse_in_header) (writerOk : Bool) (written : List Nat) :
    Context :=
  { header := header, writerOk := writerOk, written := written }

/-- `AsyncWriteExt::write_vectored` on the modelled writer: appends the
concatenation of the slices, or fails without writing. -/
def writeVectored (cx : Context) (vec : List (List Nat)) :
    Except SendError Unit × Context :=
  if cx.writerOk then (Except.ok (), { cx with written := cx.written ++ vec.flatten })
  else (Except.error SendError.deviceError, cx)

/-- Total byte count of the payload slices (`data.iter().map(|t| t.len()).sum()`). -/
def payloadLen (data : List (List Nat)) : Nat := (data.map List.length).sum

/-- ERRNO constants used by the code (Linux values of `libc`). -/
def ENOENT : Int := 2
def ENOTDIR : Int := 20
def EISDIR : Int := 21
def ENOSYS : Int := 38

/-- The out-header `send_reply` constructs: `unique` copied from the
request's in-header, `error` negated, `len = sizeof(fuse_out_header) +
data_len`. -/
def sentHeader (cx : Context) (error : Int) (data : List (List Nat)) :
    fuse_out_header :=
  { unique := cx.header.unique
    error := -error
    len := 16 + payloadLen data }

/-- The iovec `send_reply` hands to the vectored write: the out-header's
bytes followed by the payload slices in order. -/
def replyVec (cx : Context) (error : Int) (data : List (List Nat)) :
    List (List Nat) :=
  (sentHeader cx error data).as_bytes :: data

/-- `Context::send_reply` (`fs.rs` lines 127-149): build the out-header,
fail with `InvalidData` when the total length does not fit in `u32`,
otherwise issue one vectored write of header followed by payload. -/
def Context.send_reply (cx : Context) (error : Int) (data : List (List Nat)) :
    Except SendError Unit × Context :=
  if 16 + payloadLen data ≤ U32_MAX then
    writeVectored cx (replyVec cx error data)
  else
    (Except.error SendError.invalidData, cx)

/-- `Context::reply_err`: reply with an error code and no payload. -/
def Context.reply_err (cx : Context) (error : Int) :
    Except SendError Unit × Context :=
  cx.send_reply error []

/-! ## Operations and the default `Filesystem::call` -/

/-- One `fuse_forget_one` entry: an inode number and the lookup-count
delta the kernel asks to subtract. -/
structure Forget where
  ino : Nat
  nlookup : Nat
  deriving Repr, DecidableEq

/-- The decoded FUSE request variants the heartbeat example matches on;
every remaining variant of `Operation` in `fs.rs` falls into `other`
(the example's `_ => ()` arm and the default `call`, which drops the
operation, treat them uniformly).  Names are byte strings. -/
inductive Operation where
  | lookup (parent : Nat) (name : List Nat)
  | forget (forgets : List Forget)
  | getattr (ino : Nat)
  | read (ino : Nat) (fh : Nat) (offset : Nat) (size : Nat)
  | readdir (ino : Nat) (fh : Nat) (offset : Nat)
  | other
  deriving Repr, DecidableEq

/-- The default implementation of `Filesystem::call` (`fs.rs` lines
74-84): drop the operation and reply `ENOSYS`. -/
def Filesystem.defaultCall (cx : Context) (op : Operation) :
    Except SendError Unit × Context :=
  let _ := op
  cx.reply_err ENOSYS

/-! ## The heartbeat example filesystem (`examples/heartbeat_entry.rs`) -/

def ROOT_INO : Nat := 1
def FILE_INO : Nat := 2

/-- The fields of `FileAttr` the heartbeat example sets (`fuse_attr`
has more; the example leaves the rest at their default zero). -/
structure FileAttr where
  ino : Nat := 0
  mode : Nat := 0
  nlink : Nat := 0
  size : Nat := 0
  deriving Repr, DecidableEq

/-- Linux `S_IFDIR` and `S_IFREG` mode bits. -/
def S_IFDIR : Nat := 0o040000
def S_IFREG : Nat := 0o100000

/-- `CurrentFile`: the mutable state of the heartbeat filesystem, a
filename (byte string) and the user-tracked lookup count (`u64`). -/
structure CurrentFile where
  filename : List Nat
  nlookup : Nat
  deriving Repr, DecidableEq

/-- The immutable part of the `Heartbeat` struct (`timeout` in whole
seconds; the `current` mutex content is passed separately as state). -/
structure Heartbeat where
  root_attr : FileAttr
  file_attr : FileAttr
  timeout : Nat
  deriving Repr, DecidableEq

/-- `Heartbeat::new`: root directory attributes on inode 1, regular
file attributes on inode 2. -/
def Heartbeat.new (timeout : Nat) : Heartbeat :=
  { root_attr := { ino := ROOT_INO, mode := S_IFDIR + 0o555, nlink := 1 }
    file_attr := { ino := FILE_INO, mode := S_IFREG + 0o444, nlink := 1, size := 0 }
    timeout := timeout }

/-- The `ReplyEntry` value the heartbeat lookup arm builds:
`ReplyEntry::default().ino(..).attr(..).ttl_entry(..).ttl_attr(..)`. -/
structure ReplyEntry where
  ino : Nat
  attr : FileAttr
  ttl_entry : Nat
  ttl_attr : Nat
  deriving Repr, DecidableEq

/-- Modelled from the spec: the encoding of a `fuse_attr` block inside
an entry/attr reply (the crate's `reply.rs` is not under `src/`).  The
spec fixes only that attributes travel in the payload; field order
follows the FUSE `fuse_attr` layout with unset fields zero. -/
def FileAttr.as_bytes (a : FileAttr) : List Nat :=
  toLEBytes 8 a.ino ++ toLEBytes 8 a.size ++ toLEBytes 8 0 ++
  toLEBytes 8 0 ++ toLEBytes 8 0 ++ toLEBytes 8 0 ++
  toLEBytes 4 0 ++ toLEBytes 4 0 ++ toLEBytes 4 0 ++
  toLEBytes 4 a.mode ++ toLEBytes 4 a.nlink ++ toLEBytes 4 0 ++
  toLEBytes 4 0 ++ toLEBytes 4 0 ++ toLEBytes 4 0 ++ toLEBytes 4 0

/-- Modelled from the spec: the payload of a committed `ReplyEntry`
(`fuse_entry_out`: nodeid, generation, validity spans, then the
attributes); `reply.rs` is not under `src/`. -/
def ReplyEntry.as_bytes (e : ReplyEntry) : List Nat :=
  toLEBytes 8 e.ino ++ toLEBytes 8 0 ++ toLEBytes 8 e.ttl_entry ++
  toLEBytes 8 e.ttl_attr ++ toLEBytes 4 0 ++ toLEBytes 4 0 ++ e.attr.as_bytes

/-- Modelled from the spec: the payload of a committed `ReplyAttr`
(`fuse_attr_out`: validity span then attributes); `reply.rs` is not
under `src/`. -/
def replyAttrBytes (timeout : Nat) (a : FileAttr) : List Nat :=
  toLEBytes 8 timeout ++ toLEBytes 4 0 ++ toLEBytes 4 0 ++ a.as_bytes

/-- Modelled from the spec: directory-entry packing
`{ino, off, type, name_len, name, padding_to_8}` (§4.4); `dirent.rs`
is not under `src/`. -/
def direntBytes (name : List Nat) (ino : Nat) (off : Nat) : List Nat :=
  let base := toLEBytes 8 ino ++ toLEBytes 8 off ++ toLEBytes 4 name.length ++
    toLEBytes 4 8 ++ name
  base ++ List.replicate ((8 - base.length % 8) % 8) 0

/-- Modelled from the spec: `cx.reply(..)` commits a success reply, the
out-header followed by the encoded payload, through the same
length-prefixed vectored write as `Context::send_reply` (`reply.rs` is
not under `src/`; §4.4 "commit a success"). -/
def Context.reply (cx : Context) (payload : List Nat) :
    Except SendError Unit × Context :=
  cx.send_reply 0 [payload]

/-- The entry reply built in the heartbeat `Lookup` arm for a hit. -/
def Heartbeat.entryReply (hb : Heartbeat) : ReplyEntry :=
  { ino := hb.file_attr.ino
    attr := hb.file_attr
    ttl_entry := hb.timeout
    ttl_attr := hb.timeout }

/-- `Heartbeat`'s `Filesystem::call` (`examples/heartbeat_entry.rs`
lines 128-191), as a function of the immutable struct, the mutex
content and the request context.  Returns the handler's `io::Result`
outcome, the new mutex content and the context (whose writer carries
the bytes written). -/
def Heartbeat.call (hb : Heartbeat) (st : CurrentFile) (cx : Context)
    (op : Operation) : Except SendError Unit × CurrentFile × Context :=
  match op with
  | Operation.lookup parent name =>
    if parent = ROOT_INO then
      if name = st.filename then
        match cx.reply (hb.entryReply).as_bytes with
        | (Except.ok _, cx') =>
          (Except.ok (), { st with nlookup := wadd64 st.nlookup 1 }, cx')
        | (Except.error e, cx') => (Except.error e, st, cx')
      else
        let (r, cx') := cx.reply_err ENOENT
        (r, st, cx')
    else
      let (r, cx') := cx.reply_err ENOTDIR
      (r, st, cx')
  | Operation.forget forgets =>
    (Except.ok (),
      { st with nlookup := (forgets.foldl
          (fun n f => if f.ino = FILE_INO then wsub64 n f.nlookup else n)
          st.nlookup) },
      cx)
  | Operation.getattr ino =>
    if ino = ROOT_INO then
      let (r, cx') := cx.reply (replyAttrBytes hb.timeout hb.root_attr)
      (r, st, cx')
    else if ino = FILE_INO then
      let (r, cx') := cx.reply (replyAttrBytes hb.timeout hb.file_attr)
      (r, st, cx')
    else
      let (r, cx') := cx.reply_err ENOENT
      (r, st, cx')
  | Operation.read ino _fh _offset _size =>
    if ino = ROOT_INO then
      let (r, cx') := cx.reply_err EISDIR
      (r, st, cx')
    else if ino = FILE_INO then
      let (r, cx') := cx.reply []
      (r, st, cx')
    else
      let (r, cx') := cx.reply_err ENOENT
      (r, st, cx')
  | Operation.readdir ino _fh offset =>
    if ino = ROOT_INO then
      if offset = 0 then
        let (r, cx') := cx.reply (direntBytes st.filename FILE_INO 1)
        (r, st, cx')
      else
        let (r, cx') := cx.reply []
        (r, st, cx')
    else
      let (r, cx') := cx.reply_err ENOTDIR
      (r, st, cx')
  | Operation.other => (Except.ok (), st, cx)

/-! ## The notifier side used by `Heartbeat::rename_file` -/

/-- Modelled from the spec: a `Server` handle as far as
`rename_file` uses it — `notify_inval_entry` pushes a `(parent, name)`
entry-invalidation notification over the shared writer, which may fail
with an I/O error (`polyfuse_tokio::Server` is not under `src/`). -/
structure Server where
  writerOk : Bool
  notified : List (Nat × List Nat)
  deriving Repr, DecidableEq

/-- Modelled from the spec: `Server::notify_inval_entry(parent, name)`
sends one INVAL_ENTRY notification, or fails without sending. -/
def Server.notify_inval_entry (s : Server) (parent : Nat) (name : List Nat) :
    Except SendError Server :=
  if s.writerOk then
    Except.ok { s with notified := s.notified ++ [(parent, name)] }
  else
    Except.error SendError.deviceError

/-- `Heartbeat::rename_file` (`examples/heartbeat_entry.rs` lines
101-114): swap in the freshly generated filename (the clock-derived
`generate_filename()` result is passed as `newName`), then notify the
kernel of the old name when a server handle is present and the lookup
count is positive. -/
def Heartbeat.rename_file (st : CurrentFile) (server : Option Server)
    (newName : List Nat) : Except SendError Unit × CurrentFile × Option Server :=
  let old_filename := st.filename
  let st' := { st with filename := newName }
  match server, st.nlookup with
  | Option.some s, n =>
    if n > 0 then
      match s.notify_inval_entry ROOT_INO old_filename with
      | Except.ok s' => (Except.ok (), st', Option.some s')
      | Except.error e => (Except.error e, st', Option.some s)
    else (Except.ok (), st', Option.some s)
  | Option.none, _ => (Except.ok (), st', Option.none)

/-! ## Byte-level lemmas -/

theorem toLEBytes_length (k v : Nat) : (toLEBytes k v).length = k := by
  induction k generalizing v with
  | zero => rfl
  | succ k ih => simp [toLEBytes, ih]

theorem fromLEBytes_toLEBytes (k v : Nat) :
    fromLEBytes (toLEBytes k v) = v % 256 ^ k := by
  induction k generalizing v with
  | zero => simp [toLEBytes, fromLEBytes, Nat.mod_one]
  | succ k ih =>
    simp only [toLEBytes, fromLEBytes, ih, Nat.mod_mod_of_dvd _ (dvd_refl 256)]
    rw [pow_succ', Nat.mod_mul]

theorem outHeader_bytes_length (h : fuse_out_header) : h.as_bytes.length = 16 := by
  simp [fuse_out_header.as_bytes, toLEBytes_length]

theorem i32_roundtrip (e : Int) (h1 : -2 ^ 31 ≤ e) (h2 : e < 2 ^ 31) :
    i32OfBits (i32ToBits e) = e := by
  unfold i32ToBits i32OfBits
  split <;> omega

theorem decodeOutHeader_bytes (h : fuse_out_header) (rest : List Nat)
    (hlen : h.len < 2 ^ 32) (herr1 : -2 ^ 31 ≤ h.error) (herr2 : h.error < 2 ^ 31)
    (huniq : h.unique < 2 ^ 64) :
    decodeOutHeader (h.as_bytes ++ rest) = some h := by
  have hA := toLEBytes_length 4 h.len
  have hB := toLEBytes_length 4 (i32ToBits h.error)
  have hC := toLEBytes_length 8 h.unique
  have hbits : i32ToBits h.error < 2 ^ 32 := by
    unfold i32ToBits; omega
  unfold decodeOutHeader fuse_out_header.as_bytes
  rw [List.append_assoc, List.append_assoc]
  have hlen16 : (toLEBytes 4 h.len ++
      (toLEBytes 4 (i32ToBits h.error) ++ (toLEBytes 8 h.unique ++ rest))).length =
      16 + rest.length := by
    simp [toLEBytes_length]
    omega
  rw [if_neg (by omega)]
  rw [List.take_left' hA, List.drop_left' hA]
  rw [List.take_left' hB]
  rw [show (8 : Nat) = 4 + 4 from rfl, ← List.drop_drop, List.drop_left' hA,
    List.drop_left' hB, List.take_left' hC]
  rw [fromLEBytes_toLEBytes, fromLEBytes_toLEBytes, fromLEBytes_toLEBytes]
  rw [Nat.mod_eq_of_lt (by norm_num at hlen ⊢; omega),
    Nat.mod_eq_of_lt (by norm_num at hbits ⊢; omega),
    Nat.mod_eq_of_lt (by norm_num at huniq ⊢; omega)]
  rw [i32_roundtrip h.error herr1 herr2]

/-! ## Sample inputs used by witnesses -/

/-- A sample in-header (a LOOKUP request with unique 7). -/
def sampleHeader : fuse_in_header :=
  { len := 45, opcode := 1, unique := 7, nodeid := 1, uid := 0, gid := 0, pid := 42 }

/-- A sample request context over a healthy writer. -/
def sampleCx : Context := Context.new sampleHeader true []

/-! ## Claim theorems: the reply encoder -/

/-- Claim C1: every reply committed through `Context::send_reply`
(including `Context::reply_err`) carries an out-header whose `len`
field is 16 (the size of `fuse_out_header`) plus the total payload
bytes, and the vectored write receives exactly the 16-byte out-header
followed by the payload slices in their given order. -/
theorem send_reply_frames (cx : Context) (error : Int) (data : List (List Nat))
    (hfit : 16 + payloadLen data ≤ U32_MAX) (hok : cx.writerOk = true) :
    cx.send_reply error data =
      (Except.ok (), { cx with written :=
        cx.written ++ ((sentHeader cx error data).as_bytes :: data).flatten }) ∧
    replyVec cx error data = (sentHeader cx error data).as_bytes :: data ∧
    (sentHeader cx error data).len = 16 + payloadLen data ∧
    (sentHeader cx error data).as_bytes.length = 16 ∧
    cx.reply_err error = cx.send_reply error [] := by
  refine ⟨?_, rfl, rfl, outHeader_bytes_length _, rfl⟩
  simp [Context.send_reply, writeVectored, replyVec, hfit, hok]

/-- Witness for C1 at a concrete context and two payload slices. -/
theorem send_reply_frames_witness :
    16 + payloadLen [[1, 2], [3]] ≤ U32_MAX ∧ sampleCx.writerOk = true ∧
    sampleCx.send_reply 0 [[1, 2], [3]] =
      (Except.ok (), { sampleCx with written := sampleCx.written ++
        ((sentHeader sampleCx 0 [[1, 2], [3]]).as_bytes :: [[1, 2], [3]]).flatten }) :=
  ⟨by decide, rfl, (send_reply_frames sampleCx 0 [[1, 2], [3]] (by decide) rfl).1⟩

/-- Claim C2: the out-header's `error` field of every committed reply
is the negation of the errno passed in, hence `0` on success and
`-errno < 0` on failure; in particular `reply_err(e)` writes `-e`.
Stated on the bytes the writer receives, decoded back. -/
theorem reply_error_field (cx : Context) (e : Int) (data : List (List Nat))
    (he0 : 0 ≤ e) (he1 : e < 2 ^ 31)
    (hfit : 16 + payloadLen data ≤ U32_MAX) (hok : cx.writerOk = true)
    (huniq : cx.header.unique < 2 ^ 64) :
    decodeOutHeader (((cx.send_reply e data).2.written).drop cx.written.length) =
      some { len := 16 + payloadLen data, error := -e, unique := cx.header.unique } ∧
    (-e : Int) ≤ 0 ∧ ((-e : Int) = 0 ↔ e = 0) ∧
    cx.reply_err e = cx.send_reply e [] := by
  refine ⟨?_, by omega, by omega, rfl⟩
  have hstep := (send_reply_frames cx e data hfit hok).1
  rw [hstep]
  simp only [List.flatten_cons]
  rw [List.drop_left]
  have : (16 : Nat) + payloadLen data < 2 ^ 32 := by
    unfold U32_MAX at hfit; omega
  exact decodeOutHeader_bytes (sentHeader cx e data) data.flatten this
    (by unfold sentHeader; simp; omega) (by unfold sentHeader; simp; omega) huniq

/-- Witness for C2 at errno 13 (EACCES) with one payload slice. -/
theorem reply_error_field_witness :
    (0 : Int) ≤ 13 ∧ (13 : Int) < 2 ^ 31 ∧
    16 + payloadLen [[9]] ≤ U32_MAX ∧ sampleCx.writerOk = true ∧
    sampleCx.header.unique < 2 ^ 64 ∧
    decodeOutHeader (((sampleCx.send_reply 13 [[9]]).2.written).drop
        sampleCx.written.length) =
      some { len := 16 + payloadLen [[9]], error := -13, unique := sampleCx.header.unique } :=
  ⟨by decide, by decide, by decide, rfl, by decide,
    (reply_error_field sampleCx 13 [[9]] (by decide) (by decide) (by decide) rfl
      (by decide)).1⟩

/-- Claim C3: every reply written through the `Context` constructed
from an incoming request header carries that header's `unique` in its
out-header. -/
theorem reply_unique_matches (hdr : fuse_in_header) (w : List Nat)
    (e : Int) (data : List (List Nat))
    (he0 : 0 ≤ e) (he1 : e < 2 ^ 31)
    (hfit : 16 + payloadLen data ≤ U32_MAX)
    (huniq : hdr.unique < 2 ^ 64) :
    ∃ oh : fuse_out_header,
      decodeOutHeader ((((Context.new hdr true w).send_reply e data).2.written).drop
        w.length) = some oh ∧
      oh.unique = hdr.unique := by
  refine ⟨_, (reply_error_field (Context.new hdr true w) e data he0 he1 hfit rfl huniq).1, rfl⟩

/-- Witness for C3: a success reply on a fresh context echoes unique 7. -/
theorem reply_unique_matches_witness :
    (0 : Int) ≤ 0 ∧ (0 : Int) < 2 ^ 31 ∧ 16 + payloadLen [] ≤ U32_MAX ∧
    sampleHeader.unique < 2 ^ 64 ∧
    (∃ oh : fuse_out_header,
      decodeOutHeader ((((Context.new sampleHeader true []).send_reply 0 []).2.written).drop
        ([] : List Nat).length) = some oh ∧
      oh.unique = sampleHeader.unique) :=
  ⟨by decide, by decide, by decide, by decide,
    reply_unique_matches sampleHeader [] 0 [] (by decide) (by decide) (by decide)
      (by decide)⟩

/-- Claim C4: for every operation variant and every context, the
default `Filesystem::call` is exactly `reply_err(ENOSYS)`: it commits
one 16-byte error reply with errno `ENOSYS` (error field `-38`) and
touches the writer in no other way. -/
theorem default_call_enosys (cx : Context) (op : Operation)
    (hok : cx.writerOk = true) (huniq : cx.header.unique < 2 ^ 64) :
    Filesystem.defaultCall cx op = cx.reply_err ENOSYS ∧
    Filesystem.defaultCall cx op =
      (Except.ok (), { cx with written :=
        cx.written ++ (sentHeader cx ENOSYS []).as_bytes }) ∧
    decodeOutHeader ((sentHeader cx ENOSYS []).as_bytes) =
      some { len := 16, error := -38, unique := cx.header.unique } := by
  refine ⟨rfl, ?_, ?_⟩
  · have hstep := (send_reply_frames cx ENOSYS [] (by decide) hok).1
    unfold Filesystem.defaultCall Context.reply_err
    rw [hstep]
    simp
  · have := decodeOutHeader_bytes (sentHeader cx ENOSYS []) []
      (by unfold sentHeader payloadLen; simp) (by unfold sentHeader ENOSYS; simp)
      (by unfold sentHeader ENOSYS; simp) huniq
    rw [List.append_nil] at this
    exact this

/-- Witness for C4 on a concrete context and a `Getattr` operation. -/
theorem default_call_enosys_witness :
    sampleCx.writerOk = true ∧ sampleCx.header.unique < 2 ^ 64 ∧
    Filesystem.defaultCall sampleCx (Operation.getattr 1) = sampleCx.reply_err ENOSYS ∧
    Filesystem.defaultCall sampleCx (Operation.getattr 1) =
      (Except.ok (), { sampleCx with written :=
        sampleCx.written ++ (sentHeader sampleCx ENOSYS []).as_bytes }) :=
  ⟨rfl, by decide, (default_call_enosys sampleCx (Operation.getattr 1) rfl (by decide)).1,
    (default_call_enosys sampleCx (Operation.getattr 1) rfl (by decide)).2.1⟩

/-- Claim C10: a payload totalling more than `u32::MAX - 16` bytes makes
`Context::send_reply` fail with `InvalidData`, and nothing is written to
the device writer on that path. -/
theorem send_reply_overflow (cx : Context) (e : Int) (data : List (List Nat))
    (hbig : U32_MAX - 16 < payloadLen data) :
    cx.send_reply e data = (Except.error SendError.invalidData, cx) := by
  unfold Context.send_reply
  rw [if_neg (by unfold U32_MAX at *; omega)]


/-- Witness for C10 with a single 2^32-byte slice. -/
theorem send_reply_overflow_witness :
    U32_MAX - 16 < payloadLen [List.replicate (2 ^ 32) 0] ∧
    sampleCx.send_reply 0 [List.replicate (2 ^ 32) 0] =
      (Except.error SendError.invalidData, sampleCx) := by
  have hlen : payloadLen [List.replicate (2 ^ 32) (0 : Nat)] = 2 ^ 32 := by
    rw [payloadLen]
    simp only [List.map, List.length_replicate, List.sum_cons, List.sum_nil, Nat.add_zero]
  have h : U32_MAX - 16 < payloadLen [List.replicate (2 ^ 32) 0] := by
    rw [hlen, U32_MAX]
    omega
  exact ⟨h, send_reply_overflow sampleCx 0 _ h⟩

/-! ## Claim theorems: the heartbeat filesystem -/

/-- Sum of the lookup-count deltas of the forget entries naming inode 2. -/
def forgetSum (forgets : List Forget) : Nat :=
  ((forgets.filter (fun f => f.ino = FILE_INO)).map Forget.nlookup).sum

/-- The fold in the heartbeat `Forget` arm subtracts exactly the deltas
aimed at inode 2, as long as the kernel never forgets more than it
looked up. -/
theorem foldl_forget_sub (forgets : List Forget) (n : Nat)
    (hn : n < U64_MOD) (hs : forgetSum forgets ≤ n) :
    forgets.foldl (fun n f => if f.ino = FILE_INO then wsub64 n f.nlookup else n) n =
      n - forgetSum forgets := by
  induction forgets generalizing n with
  | nil => simp [forgetSum]
  | cons f l ih =>
    by_cases h : f.ino = FILE_INO
    · have hsum : forgetSum (f :: l) = f.nlookup + forgetSum l := by
        simp [forgetSum, List.filter_cons, h]
      rw [hsum] at hs
      have hstep : wsub64 n f.nlookup = n - f.nlookup := by
        unfold wsub64 U64_MOD
        unfold U64_MOD at hn
        omega
      simp only [List.foldl_cons, if_pos h, hstep]
      rw [ih (n - f.nlookup) (by omega) (by omega), hsum]
      omega
    · have hsum : forgetSum (f :: l) = forgetSum l := by
        simp [forgetSum, List.filter_cons, h]
      simp only [List.foldl_cons, if_neg h]
      rw [ih n hn (by omega), hsum]

/-- Claim C5: a `Forget` operation delivered to the heartbeat
filesystem writes no reply, and the stored `nlookup` counter drops by
exactly the sum of the deltas of the entries naming inode 2 (entries
naming other inodes leave it unchanged, being filtered out of that
sum). -/
theorem heartbeat_forget (hb : Heartbeat) (st : CurrentFile) (cx : Context)
    (forgets : List Forget)
    (hn : st.nlookup < U64_MOD)
    (hs : forgetSum forgets ≤ st.nlookup) :
    hb.call st cx (Operation.forget forgets) =
      (Except.ok (), { st with nlookup := st.nlookup - forgetSum forgets }, cx) := by
  simp only [Heartbeat.call]
  rw [foldl_forget_sub forgets st.nlookup hn hs]

/-- Witness for C5: deltas 2 and 1 on inode 2 plus a delta on inode 3
drop the counter from 5 to 2, with nothing written. -/
theorem heartbeat_forget_witness :
    (5 : Nat) < U64_MOD ∧
    forgetSum [⟨2, 2⟩, ⟨3, 7⟩, ⟨2, 1⟩] ≤ 5 ∧
    (Heartbeat.new 3).call ⟨[65], 5⟩ sampleCx
        (Operation.forget [⟨2, 2⟩, ⟨3, 7⟩, ⟨2, 1⟩]) =
      (Except.ok (), { filename := [65], nlookup := 5 - forgetSum [⟨2, 2⟩, ⟨3, 7⟩, ⟨2, 1⟩] },
        sampleCx) :=
  ⟨by decide, by decide,
    heartbeat_forget (Heartbeat.new 3) ⟨[65], 5⟩ sampleCx
      [⟨2, 2⟩, ⟨3, 7⟩, ⟨2, 1⟩] (by decide) (by decide)⟩

/-- The committed entry payload is the fixed 128 bytes of
`fuse_entry_out`. -/
theorem entry_bytes_length (e : ReplyEntry) : e.as_bytes.length = 128 := by
  simp [ReplyEntry.as_bytes, FileAttr.as_bytes, toLEBytes_length]

/-- Claim C6: a heartbeat `Lookup` under parent 1 for the current
filename replies with an entry whose inode number is 2, and the stored
`nlookup` counter grows by exactly one precisely when that reply write
succeeds; a failed write leaves it unchanged. -/
theorem heartbeat_lookup_hit (t : Nat) (st : CurrentFile) (cx : Context)
    (hn : st.nlookup + 1 < U64_MOD) :
    ((Heartbeat.new t).entryReply).ino = FILE_INO ∧
    (cx.writerOk = true →
      (Heartbeat.new t).call st cx (Operation.lookup ROOT_INO st.filename) =
        (Except.ok (),
          { st with nlookup := st.nlookup + 1 },
          { cx with written := cx.written ++
              ((sentHeader cx 0 [((Heartbeat.new t).entryReply).as_bytes]).as_bytes ++
                ((Heartbeat.new t).entryReply).as_bytes) })) ∧
    (cx.writerOk = false →
      (Heartbeat.new t).call st cx (Operation.lookup ROOT_INO st.filename) =
        (Except.error SendError.deviceError, st, cx)) := by
  have hfit : 16 + payloadLen [((Heartbeat.new t).entryReply).as_bytes] ≤ U32_MAX := by
    simp [payloadLen, entry_bytes_length, U32_MAX]
  refine ⟨rfl, ?_, ?_⟩ <;> intro hok <;>
    simp [Heartbeat.call, Context.reply, Context.send_reply, writeVectored, replyVec,
      hfit, hok, wadd64, Nat.mod_eq_of_lt hn]

/-- Witness for C6: a hit on a healthy writer bumps the counter 0 → 1. -/
theorem heartbeat_lookup_hit_witness :
    (0 : Nat) + 1 < U64_MOD ∧ sampleCx.writerOk = true ∧
    (Heartbeat.new 3).call ⟨[65], 0⟩ sampleCx (Operation.lookup ROOT_INO [65]) =
      (Except.ok (),
        { filename := [65], nlookup := 0 + 1 },
        { sampleCx with written := sampleCx.written ++
            ((sentHeader sampleCx 0 [((Heartbeat.new 3).entryReply).as_bytes]).as_bytes ++
              ((Heartbeat.new 3).entryReply).as_bytes) }) :=
  ⟨by decide, rfl, (heartbeat_lookup_hit 3 ⟨[65], 0⟩ sampleCx (by decide)).2.1 rfl⟩

/-- Claim C7: a heartbeat `Lookup` under parent 1 for any other name
writes exactly one 16-byte reply carrying error `-ENOENT` (`-2`),
length 16 and the request's unique, and leaves the counter untouched. -/
theorem heartbeat_lookup_miss (hb : Heartbeat) (st : CurrentFile) (cx : Context)
    (name : List Nat) (hname : name ≠ st.filename) (hok : cx.writerOk = true)
    (huniq : cx.header.unique < 2 ^ 64) :
    hb.call st cx (Operation.lookup ROOT_INO name) =
      (Except.ok (), st,
        { cx with written := cx.written ++ (sentHeader cx ENOENT []).as_bytes }) ∧
    (sentHeader cx ENOENT []).as_bytes.length = 16 ∧
    decodeOutHeader ((sentHeader cx ENOENT []).as_bytes) =
      some { len := 16, error := -2, unique := cx.header.unique } := by
  have hfit : 16 + payloadLen ([] : List (List Nat)) ≤ U32_MAX := by decide
  refine ⟨?_, outHeader_bytes_length _, ?_⟩
  · simp [Heartbeat.call, Context.reply_err, Context.send_reply, writeVectored, replyVec,
      hname, hok, hfit]
  · have := decodeOutHeader_bytes (sentHeader cx ENOENT []) []
      (by unfold sentHeader payloadLen; simp) (by unfold sentHeader ENOENT; simp)
      (by unfold sentHeader ENOENT; simp) huniq
    rw [List.append_nil] at this
    exact this

/-- Witness for C7: looking up name "B" while the current file is "A"
produces the ENOENT frame. -/
theorem heartbeat_lookup_miss_witness :
    ([66] : List Nat) ≠ ([65] : List Nat) ∧ sampleCx.writerOk = true ∧
    sampleCx.header.unique < 2 ^ 64 ∧
    (Heartbeat.new 3).call ⟨[65], 4⟩ sampleCx (Operation.lookup ROOT_INO [66]) =
      (Except.ok (), ⟨[65], 4⟩,
        { sampleCx with written := sampleCx.written ++
            (sentHeader sampleCx ENOENT []).as_bytes }) :=
  ⟨by decide, rfl, by decide,
    (heartbeat_lookup_miss (Heartbeat.new 3) ⟨[65], 4⟩ sampleCx [66]
      (by decide) rfl (by decide)).1⟩

/-- Claim C9: a heartbeat `Read` of inode 2 at any offset and size
writes exactly one success reply with empty payload: a 16-byte frame
with error 0, length 16 and the request's unique, and nothing else. -/
theorem heartbeat_read_file (hb : Heartbeat) (st : CurrentFile) (cx : Context)
    (fh offset size : Nat) (hok : cx.writerOk = true)
    (huniq : cx.header.unique < 2 ^ 64) :
    hb.call st cx (Operation.read FILE_INO fh offset size) =
      (Except.ok (), st,
        { cx with written := cx.written ++ (sentHeader cx 0 [[]]).as_bytes }) ∧
    decodeOutHeader ((sentHeader cx 0 [[]]).as_bytes) =
      some { len := 16, error := 0, unique := cx.header.unique } := by
  have hfit : 16 + payloadLen [([] : List Nat)] ≤ U32_MAX := by decide
  refine ⟨?_, ?_⟩
  · simp [Heartbeat.call, Context.reply, Context.send_reply, writeVectored, replyVec,
      hok, hfit, FILE_INO, ROOT_INO]
  · have := decodeOutHeader_bytes (sentHeader cx 0 [[]]) []
      (by unfold sentHeader payloadLen; simp) (by unfold sentHeader; simp)
      (by unfold sentHeader; simp) huniq
    rw [List.append_nil] at this
    exact this

/-- Witness for C9 at offset 0, size 4096. -/
theorem heartbeat_read_file_witness :
    sampleCx.writerOk = true ∧ sampleCx.header.unique < 2 ^ 64 ∧
    (Heartbeat.new 3).call ⟨[65], 4⟩ sampleCx (Operation.read FILE_INO 0 0 4096) =
      (Except.ok (), ⟨[65], 4⟩,
        { sampleCx with written := sampleCx.written ++
            (sentHeader sampleCx 0 [[]]).as_bytes }) :=
  ⟨rfl, by decide,
    (heartbeat_read_file (Heartbeat.new 3) ⟨[65], 4⟩ sampleCx 0 0 4096 rfl (by decide)).1⟩

/-- Claim C8: `Heartbeat::rename_file` always installs the freshly
generated filename (even when the notification fails), keeps the
counter, and sends exactly one `notify_inval_entry` for parent 1 and
the old filename precisely when a server handle is supplied and the
stored `nlookup` is positive; otherwise nothing is sent. -/
theorem rename_file_spec (st : CurrentFile) (server : Option Server)
    (newName : List Nat) :
    (Heartbeat.rename_file st server newName).2.1 =
      { filename := newName, nlookup := st.nlookup } ∧
    (server = Option.none →
      Heartbeat.rename_file st server newName =
        (Except.ok (), { st with filename := newName }, Option.none)) ∧
    (∀ s, server = Option.some s → st.nlookup = 0 →
      Heartbeat.rename_file st server newName =
        (Except.ok (), { st with filename := newName }, Option.some s)) ∧
    (∀ s, server = Option.some s → 0 < st.nlookup → s.writerOk = true →
      Heartbeat.rename_file st server newName =
        (Except.ok (), { st with filename := newName },
          Option.some { s with notified := s.notified ++ [(ROOT_INO, st.filename)] })) ∧
    (∀ s, server = Option.some s → 0 < st.nlookup → s.writerOk = false →
      Heartbeat.rename_file st server newName =
        (Except.error SendError.deviceError, { st with filename := newName },
          Option.some s)) := by
  refine ⟨?_, ?_, ?_, ?_, ?_⟩
  · rcases server with _ | s
    · rfl
    · by_cases h0 : 0 < st.nlookup
      · by_cases hw : s.writerOk = true
        · simp [Heartbeat.rename_file, Server.notify_inval_entry, h0, hw]
        · simp [Heartbeat.rename_file, Server.notify_inval_entry, h0, hw]
      · simp [Heartbeat.rename_file, h0]
  · rintro rfl
    rfl
  · rintro s rfl h0
    simp [Heartbeat.rename_file, h0]
  · rintro s rfl h0 hw
    simp [Heartbeat.rename_file, Server.notify_inval_entry, h0, hw]
  · rintro s rfl h0 hw
    simp [Heartbeat.rename_file, Server.notify_inval_entry, h0, hw]

/-- Witness for C8: with a live server and `nlookup = 3`, the rename
installs the new name and sends one invalidation for `(1, old name)`. -/
theorem rename_file_spec_witness :
    (0 : Nat) < (3 : Nat) ∧
    Heartbeat.rename_file ⟨[65], 3⟩ (Option.some ⟨true, []⟩) [66] =
      (Except.ok (), { filename := [66], nlookup := 3 },
        Option.some { writerOk := true, notified := [(ROOT_INO, [65])] }) :=
  ⟨by decide,
    (rename_file_spec ⟨[65], 3⟩ (Option.some ⟨true, []⟩) [66]).2.2.2.1
      ⟨true, []⟩ rfl (by decide) rfl⟩
